import Mathlib

/-!
Verification of the Two Left Feet interactive-presentation server
(`src/server.js`): a shallow embedding of its in-memory state and the
HTTP handlers the spec describes, followed by theorems settling the
spec's claims.

The server keeps three pieces of process-wide state: `currentSlide`
(a string), `presentationElements` (a JS object keyed by element id)
and `responses` (a JS object mapping element id to an array of
response records).  JS objects are modelled as association lists with
at most one binding per key; timestamps (`new Date().toISOString()`)
are modelled as an abstract clock value of type `Nat` passed to each
handler.  Every handler returns the (possibly unchanged) state paired
with an `Except`-style outcome mirroring the HTTP status: a 400 is
`ApiError.validationError`, a 404 `ApiError.notFoundError`, a 401
`ApiError.unauthorizedError`.
-/

/-- An interactive element as stored by `POST /api/elements`. -/
structure Element where
  id : String
  type : String
  title : String
  options : List String
  createdAt : Nat
deriving Repr, DecidableEq

/-- One audience response as stored by `POST /api/responses`.
`option` is the (possibly absent, possibly out-of-range) integer index
sent by the client. -/
structure Response where
  user : String
  timestamp : Nat
  response : Option String
  option : Option Int
  optionText : Option String
deriving Repr, DecidableEq

/-- The error taxonomy of the server's non-2xx replies. -/
inductive ApiError where
  | validationError
  | notFoundError
  | unauthorizedError
deriving Repr, DecidableEq

/-- The process-wide mutable state of `server.js`. -/
structure ServerState where
  currentSlide : String
  presentationElements : List (String × Element)
  responses : List (String × List Response)
deriving Repr, DecidableEq

/-- The state at process start: empty slide, no elements, no responses. -/
def initialState : ServerState :=
  { currentSlide := "", presentationElements := [], responses := [] }

/-- JS object assignment `obj[k] = v`: replace the binding in place if the
key exists, otherwise append it. -/
def setKey {α : Type} : List (String × α) → String → α → List (String × α)
  | [], k, v => [(k, v)]
  | (k2, v2) :: rest, k, v =>
      if k2 = k then (k, v) :: rest else (k2, v2) :: setKey rest k v

/-- JS `delete obj[k]`: drop every binding for the key. -/
def eraseKey {α : Type} : List (String × α) → String → List (String × α)
  | [], _ => []
  | (k2, v2) :: rest, k =>
      if k2 = k then eraseKey rest k else (k2, v2) :: eraseKey rest k

/-- `GET /api/sync?slideName=...`: rejects a missing/empty name with a 400,
otherwise overwrites `currentSlide` and replies with the current time.
No timestamp is stored in the state. -/
def setSlide (st : ServerState) (slideName : String) (now : Nat) :
    ServerState × Except ApiError Nat :=
  if slideName = "" then (st, .error .validationError)
  else ({ st with currentSlide := slideName }, .ok now)

/-- The reply of `GET /api/current-slide`. -/
structure CurrentSlideReply where
  currentSlide : String
  timestamp : Nat
deriving Repr, DecidableEq

/-- `GET /api/current-slide`: returns the stored slide together with a
timestamp taken at read time (`new Date().toISOString()` in the handler). -/
def getSlide (st : ServerState) (now : Nat) : CurrentSlideReply :=
  { currentSlide := st.currentSlide, timestamp := now }

/-- `POST /api/elements`: validates `id`, `type`, `title` (JS falsiness of
a string argument = empty string), then stores the element under its id,
silently overwriting any previous binding. -/
def saveElement (st : ServerState) (id ty title : String)
    (options : Option (List String)) (now : Nat) :
    ServerState × Except ApiError Element :=
  if id = "" ∨ ty = "" ∨ title = "" then (st, .error .validationError)
  else
    let el : Element :=
      { id := id, type := ty, title := title,
        options := options.getD [], createdAt := now }
    ({ st with presentationElements := setKey st.presentationElements id el },
     .ok el)

/-- `GET /api/elements`: the full id-to-element mapping. -/
def listElements (st : ServerState) : List (String × Element) :=
  st.presentationElements

/-- `GET /api/elements/:id`: 404 when the id is unbound. -/
def getElement (st : ServerState) (id : String) : Except ApiError Element :=
  match st.presentationElements.lookup id with
  | none => .error .notFoundError
  | some el => .ok el

/-- `DELETE /api/elements/:id`: 404 when the id is unbound; otherwise
removes the element and its response array in the same step. -/
def deleteElement (st : ServerState) (id : String) :
    ServerState × Except ApiError Unit :=
  match st.presentationElements.lookup id with
  | none => (st, .error .notFoundError)
  | some _ =>
      ({ st with
          presentationElements := eraseKey st.presentationElements id,
          responses := eraseKey st.responses id },
       .ok ())

/-- `POST /api/responses`: validates `elementId` and `user`, then appends
the response to the (possibly fresh) array for that id — without checking
that an element with that id exists — and replies with the new length. -/
def submitResponse (st : ServerState) (elementId user : String)
    (response : Option String) (opt : Option Int) (optionText : Option String)
    (now : Nat) : ServerState × Except ApiError Nat :=
  if elementId = "" ∨ user = "" then (st, .error .validationError)
  else
    let prev := (st.responses.lookup elementId).getD []
    let rs := prev ++ [{ user := user, timestamp := now, response := response,
                         option := opt, optionText := optionText }]
    ({ st with responses := setKey st.responses elementId rs }, .ok rs.length)

/-- The reply of `GET /api/responses/:elementId`. -/
structure ResponsesReply where
  elementId : String
  responses : List Response
  count : Nat
deriving Repr, DecidableEq

/-- `GET /api/responses/:elementId`: never fails; an unbound id yields the
empty array. -/
def listResponses (st : ServerState) (elementId : String) : ResponsesReply :=
  let rs := (st.responses.lookup elementId).getD []
  { elementId := elementId, responses := rs, count := rs.length }

/-- `Math.round`, on exact rationals: round half toward positive infinity. -/
def jsRound (x : ℚ) : ℤ := (x + 1 / 2).floor

instance {ε α : Type} [DecidableEq ε] [DecidableEq α] :
    DecidableEq (Except ε α) := fun x y =>
  match x, y with
  | .ok a, .ok b =>
      if h : a = b then .isTrue (by rw [h])
      else .isFalse (by intro hc; cases hc; exact h rfl)
  | .ok _, .error _ => .isFalse (by intro hc; cases hc)
  | .error _, .ok _ => .isFalse (by intro hc; cases hc)
  | .error e, .error f =>
      if h : e = f then .isTrue (by rw [h])
      else .isFalse (by intro hc; cases hc; exact h rfl)

/-- One entry of the text-kind aggregation. -/
structure TextEntry where
  user : String
  response : Option String
  timestamp : Nat
deriving Repr, DecidableEq

/-- One bucket of the choice-kind aggregation. -/
structure OptionResult where
  text : String
  count : Nat
  percentage : ℚ
deriving Repr, DecidableEq

/-- The `results` field of `GET /api/results/:elementId`: either the raw
text responses (for `type === 'question'`) or per-option buckets keyed by
index together with the total. -/
inductive Results where
  | text (responses : List TextEntry)
  | choice (options : List OptionResult) (total : Nat)
deriving Repr, DecidableEq

/-- One bucket of the choice aggregation, exactly as the handler computes
it: `count` filters on `r.option === index`, `percentage` is
`Math.round((count / total * 100) * 10) / 10`, or `0` when there are no
responses. -/
def aggregateOption (text : String) (index : Nat) (rs : List Response) :
    OptionResult :=
  let count := (rs.filter fun r => r.option = some (index : Int)).length
  let percentage : ℚ :=
    if rs.length > 0 then (count : ℚ) / (rs.length : ℚ) * 100 else 0
  { text := text, count := count,
    percentage := (jsRound (percentage * 10) : ℚ) / 10 }

/-- `GET /api/results/:elementId`: 404 when the element is unbound (even if
responses exist for the id); otherwise aggregates the element's response
array according to its type. -/
def getResults (st : ServerState) (elementId : String) :
    Except ApiError Results :=
  match st.presentationElements.lookup elementId with
  | none => .error .notFoundError
  | some el =>
      let rs := (st.responses.lookup elementId).getD []
      if el.type = "question" then
        .ok (.text (rs.map fun r =>
          { user := r.user, response := r.response, timestamp := r.timestamp }))
      else
        .ok (.choice (el.options.enum.map fun p =>
          aggregateOption p.2 p.1 rs) rs.length)

/-- The shared admin secret checked by `DELETE /api/responses`. -/
def adminSecret : String := "twoleftfeet2024"

/-- `DELETE /api/responses?adminKey=...`: 401 (state untouched) unless the
key matches the admin secret; on success empties the whole response map. -/
def clearAllResponses (st : ServerState) (adminKey : String) :
    ServerState × Except ApiError Unit :=
  if adminKey ≠ adminSecret then (st, .error .unauthorizedError)
  else ({ st with responses := [] }, .ok ())

/-- The reply of `GET /api/health` (the fields the core model covers). -/
structure HealthReply where
  currentSlide : String
  elementsCount : Nat
  responsesCount : Nat
deriving Repr, DecidableEq

/-- `GET /api/health`: never fails; counts the element keys and sums the
lengths of all response arrays. -/
def getHealth (st : ServerState) : HealthReply :=
  { currentSlide := st.currentSlide,
    elementsCount := st.presentationElements.length,
    responsesCount := (st.responses.map fun p => p.2.length).sum }

/-- The percentage formula as the spec words it:
`round(count/total*1000)/10`, and `0` when `total = 0`. -/
def specPercentage (count total : Nat) : ℚ :=
  if total = 0 then 0
  else (jsRound ((count : ℚ) / (total : ℚ) * 1000) : ℚ) / 10

/-- Whether a submitted option index is a valid in-range index into an
options list of the given length. -/
def optionInRange (o : Option Int) (n : Nat) : Prop :=
  ∃ i : Nat, i < n ∧ o = some (i : Int)

instance (o : Option Int) (n : Nat) : Decidable (optionInRange o n) := by
  unfold optionInRange
  infer_instance

/-! ### Helper lemmas about the embedded stores and rounding -/

theorem rat_floor_eq_intFloor (a : ℚ) : a.floor = ⌊a⌋ := by
  rw [Rat.floor_def', Rat.floor_def]

theorem jsRound_eq (x : ℚ) (z : ℤ) (h1 : (z : ℚ) ≤ x + 1 / 2)
    (h2 : x + 1 / 2 < z + 1) : jsRound x = z := by
  unfold jsRound
  rw [rat_floor_eq_intFloor]
  exact Int.floor_eq_iff.mpr ⟨h1, h2⟩

theorem jsRound_zero : jsRound 0 = 0 := by
  apply jsRound_eq <;> norm_num

theorem lookup_setKey_self {α : Type} (l : List (String × α)) (k : String)
    (v : α) : (setKey l k v).lookup k = some v := by
  induction l with
  | nil => simp [setKey, List.lookup]
  | cons p rest ih =>
      obtain ⟨k2, v2⟩ := p
      by_cases h : k2 = k
      · subst h; simp [setKey, List.lookup]
      · simp only [setKey, if_neg h, List.lookup]
        rw [show (k == k2) = false from
          beq_eq_false_iff_ne.mpr fun hc => h hc.symm]
        exact ih

theorem lookup_eraseKey_self {α : Type} (l : List (String × α)) (k : String) :
    (eraseKey l k).lookup k = none := by
  induction l with
  | nil => simp [eraseKey, List.lookup]
  | cons p rest ih =>
      obtain ⟨k2, v2⟩ := p
      by_cases h : k2 = k
      · simpa [eraseKey, h] using ih
      · simp only [eraseKey, if_neg h, List.lookup]
        rw [show (k == k2) = false from
          beq_eq_false_iff_ne.mpr fun hc => h hc.symm]
        exact ih

theorem aggregateOption_text (t : String) (i : Nat) (rs : List Response) :
    (aggregateOption t i rs).text = t := rfl

theorem aggregateOption_count (t : String) (i : Nat) (rs : List Response) :
    (aggregateOption t i rs).count =
      (rs.filter fun r => r.option = some (i : Int)).length := rfl

theorem aggregateOption_percentage_spec (t : String) (i : Nat)
    (rs : List Response) :
    (aggregateOption t i rs).percentage =
      specPercentage (aggregateOption t i rs).count rs.length := by
  rcases Nat.eq_zero_or_pos rs.length with h0 | hpos
  · simp only [aggregateOption, specPercentage, h0]
    norm_num [jsRound_zero]
  · have hne : rs.length ≠ 0 := Nat.pos_iff_ne_zero.mp hpos
    simp only [aggregateOption, specPercentage, if_pos hpos, if_neg hne]
    have harg :
        ((rs.filter fun r => r.option = some (i : Int)).length : ℚ) /
            (rs.length : ℚ) * 100 * 10 =
          ((rs.filter fun r => r.option = some (i : Int)).length : ℚ) /
            (rs.length : ℚ) * 1000 := by ring
    rw [harg]

theorem aggregateOption_nil (t : String) (i : Nat) :
    aggregateOption t i [] = { text := t, count := 0, percentage := 0 } := by
  simp only [aggregateOption, List.filter_nil, List.length_nil]
  norm_num [jsRound_zero]

theorem aggregateOption_eq_spec (t : String) (i : Nat) (rs : List Response) :
    aggregateOption t i rs =
      { text := t,
        count := (rs.filter fun r => r.option = some (i : Int)).length,
        percentage := specPercentage
          ((rs.filter fun r => r.option = some (i : Int)).length)
          rs.length } := by
  have hp := aggregateOption_percentage_spec t i rs
  rw [aggregateOption_count] at hp
  calc aggregateOption t i rs
      = ⟨(aggregateOption t i rs).text, (aggregateOption t i rs).count,
         (aggregateOption t i rs).percentage⟩ := rfl
    _ = _ := by rw [aggregateOption_text, aggregateOption_count, hp]

theorem specPercentage_zero (c : Nat) : specPercentage c 0 = 0 := by
  simp [specPercentage]

theorem getResults_choice_eq (st : ServerState) (eid : String) (el : Element)
    (hel : st.presentationElements.lookup eid = some el)
    (hq : el.type ≠ "question") :
    getResults st eid =
      .ok (.choice
        (el.options.enum.map fun p =>
          aggregateOption p.2 p.1 ((st.responses.lookup eid).getD []))
        ((st.responses.lookup eid).getD []).length) := by
  unfold getResults
  rw [hel]
  simp only [if_neg hq]

/-- The spec's poll scenario responses: users u1, u2, u3 choosing
options 0, 1, 0. -/
def scenarioResponses : List Response :=
  [{ user := "u1", timestamp := 1, response := none, option := some 0,
     optionText := none },
   { user := "u2", timestamp := 2, response := none, option := some 1,
     optionText := none },
   { user := "u3", timestamp := 3, response := none, option := some 0,
     optionText := none }]

/-- The spec's poll scenario state: element `p1` of type `poll` with
options `["A","B"]`, then the three responses of `scenarioResponses`
submitted in order. -/
def scenarioPollState : ServerState :=
  (submitResponse
    (submitResponse
      (submitResponse
        (saveElement initialState "p1" "poll" "Poll" (some ["A", "B"]) 0).1
        "p1" "u1" none (some 0) none 1).1
      "p1" "u2" none (some 1) none 2).1
    "p1" "u3" none (some 0) none 3).1

theorem scenario_optionA :
    aggregateOption "A" 0 scenarioResponses =
      { text := "A", count := 2, percentage := 667 / 10 } := by
  unfold aggregateOption
  have hc : (scenarioResponses.filter
      fun r => r.option = some ((0 : Nat) : Int)).length = 2 := rfl
  simp only [hc]
  norm_num [scenarioResponses]
  rw [jsRound_eq ((2000 : ℚ) / 3) 667 (by norm_num) (by norm_num)]
  norm_num

theorem scenario_optionB :
    aggregateOption "B" 1 scenarioResponses =
      { text := "B", count := 1, percentage := 333 / 10 } := by
  unfold aggregateOption
  have hc : (scenarioResponses.filter
      fun r => r.option = some ((1 : Nat) : Int)).length = 1 := rfl
  simp only [hc]
  norm_num [scenarioResponses]
  rw [jsRound_eq ((1000 : ℚ) / 3) 333 (by norm_num) (by norm_num)]
  norm_num

/-- C1: for an element of choice kind (`type` ≠ `question`), aggregation
yields, for each option index `i`, a bucket whose `text` is the `i`-th
option, whose `count` is the number of responses with `option = i`, and
whose `percentage` is `round(count/total*1000)/10` with `total` the full
number of responses for that element (`0` percentage and count when
`total = 0`); and on the spec's concrete scenario (`p1`, options
`["A","B"]`, responses choosing 0, 1, 0) it yields `total = 3`, option 0
`{count 2, percentage 66.7}`, option 1 `{count 1, percentage 33.3}`. -/
theorem claim1_aggregate_choice (st : ServerState) (eid : String)
    (el : Element) (hel : st.presentationElements.lookup eid = some el)
    (hq : el.type ≠ "question") :
    (∃ opts : List OptionResult, getResults st eid =
        .ok (.choice opts ((st.responses.lookup eid).getD []).length) ∧
      opts.length = el.options.length ∧
      (∀ (i : Nat) (text : String), el.options[i]? = some text →
        opts[i]? = some
          { text := text,
            count := (((st.responses.lookup eid).getD []).filter
              fun r => r.option = some (i : Int)).length,
            percentage := specPercentage
              ((((st.responses.lookup eid).getD []).filter
                fun r => r.option = some (i : Int)).length)
              ((st.responses.lookup eid).getD []).length }) ∧
      ((st.responses.lookup eid).getD [] = [] →
        ∀ o ∈ opts, o.count = 0 ∧ o.percentage = 0)) ∧
    getResults scenarioPollState "p1" =
      .ok (.choice
        [{ text := "A", count := 2, percentage := 667 / 10 },
         { text := "B", count := 1, percentage := 333 / 10 }] 3) := by
  constructor
  · refine ⟨_, getResults_choice_eq st eid el hel hq, ?_, ?_, ?_⟩
    · simp [List.enum_length]
    · intro i text hit
      rw [List.getElem?_map, List.getElem?_enum, hit]
      simp only [Option.map_some']
      rw [aggregateOption_eq_spec]
    · intro h o ho
      rw [h] at ho
      obtain ⟨p, _, rfl⟩ := List.mem_map.mp ho
      rw [aggregateOption_nil]
      exact ⟨rfl, rfl⟩
  · have hr : getResults scenarioPollState "p1" =
        .ok (.choice
          [aggregateOption "A" 0 scenarioResponses,
           aggregateOption "B" 1 scenarioResponses] 3) := rfl
    rw [hr, scenario_optionA, scenario_optionB]

/-- Witness for C1: the scenario conjunct at the scenario state. -/
theorem claim1_aggregate_choice_witness :
    getResults scenarioPollState "p1" =
      .ok (.choice
        [{ text := "A", count := 2, percentage := 667 / 10 },
         { text := "B", count := 1, percentage := 333 / 10 }] 3) :=
  (claim1_aggregate_choice scenarioPollState "p1"
    { id := "p1", type := "poll", title := "Poll",
      options := ["A", "B"], createdAt := 0 }
    (by decide) (by decide)).2

/-- C2: deleting an element fails with `NotFoundError` when the id is
absent; on success the element and its whole response array are removed
in the same atomic step, so afterwards the element is gone from
`listElements`, `listResponses` returns the empty array with count 0,
and `aggregate` fails with `NotFoundError`. -/
theorem claim2_deleteElement_cascade (st : ServerState) (id : String) :
    (st.presentationElements.lookup id = none →
      deleteElement st id = (st, .error .notFoundError)) ∧
    (∀ el : Element, st.presentationElements.lookup id = some el →
      (deleteElement st id).2 = .ok () ∧
      (listElements (deleteElement st id).1).lookup id = none ∧
      listResponses (deleteElement st id).1 id =
        { elementId := id, responses := [], count := 0 } ∧
      getResults (deleteElement st id).1 id = .error .notFoundError) := by
  constructor
  · intro h
    unfold deleteElement
    rw [h]
  · intro el h
    unfold deleteElement
    rw [h]
    refine ⟨rfl, ?_, ?_, ?_⟩
    · simpa [listElements] using
        lookup_eraseKey_self st.presentationElements id
    · simp [listResponses, lookup_eraseKey_self]
    · unfold getResults
      rw [show (({ st with
            presentationElements := eraseKey st.presentationElements id,
            responses := eraseKey st.responses id } : ServerState),
          (Except.ok () : Except ApiError Unit)).1.presentationElements.lookup
            id = none from lookup_eraseKey_self _ _]

/-- Witness for C2 at the scenario state, which holds element `p1` and
three responses for it. -/
theorem claim2_deleteElement_cascade_witness :
    (deleteElement scenarioPollState "p1").2 = .ok () ∧
    (listElements (deleteElement scenarioPollState "p1").1).lookup "p1" =
      none ∧
    listResponses (deleteElement scenarioPollState "p1").1 "p1" =
      { elementId := "p1", responses := [], count := 0 } ∧
    getResults (deleteElement scenarioPollState "p1").1 "p1" =
      .error .notFoundError :=
  (claim2_deleteElement_cascade scenarioPollState "p1").2
    { id := "p1", type := "poll", title := "Poll",
      options := ["A", "B"], createdAt := 0 }
    (by decide)


theorem sum_indicator_range (v : Option Int) (n : Nat) :
    ((List.range n).map fun i : Nat =>
      if v = some (i : Int) then 1 else 0).sum =
      if optionInRange v n then 1 else 0 := by
  induction n with
  | zero =>
      have h0 : ¬ optionInRange v 0 := by
        rintro ⟨i, hi, _⟩
        exact Nat.not_lt_zero i hi
      simp [h0]
  | succ n ih =>
      rw [List.range_succ, List.map_append, List.sum_append]
      simp only [List.map_cons, List.map_nil, List.sum_cons, List.sum_nil]
      rw [ih]
      by_cases hv : v = some (n : Int)
      · have h1 : ¬ optionInRange v n := by
          rintro ⟨i, hi, he⟩
          rw [hv] at he
          have : (n : Int) = (i : Int) := Option.some.inj he
          omega
        have h2 : optionInRange v (n + 1) := ⟨n, Nat.lt_succ_self n, hv⟩
        rw [if_neg h1, if_pos hv, if_pos h2]
        omega
      · have h3 : optionInRange v (n + 1) ↔ optionInRange v n := by
          constructor
          · rintro ⟨i, hi, he⟩
            rcases Nat.lt_succ_iff_lt_or_eq.mp hi with hlt | heq
            · exact ⟨i, hlt, he⟩
            · subst heq
              exact absurd he hv
          · rintro ⟨i, hi, he⟩
            exact ⟨i, Nat.lt_succ_of_lt hi, he⟩
        simp [hv, h3]

theorem sum_counts_eq (n : Nat) (rs : List Response) :
    ((List.range n).map fun i : Nat =>
      (rs.filter fun r => r.option = some (i : Int)).length).sum =
    (rs.filter fun r => decide (optionInRange r.option n)).length := by
  induction rs with
  | nil => simp
  | cons r rest ih =>
      have hsplit : ∀ i : Nat,
          ((r :: rest).filter fun x => x.option = some (i : Int)).length =
          (if r.option = some (i : Int) then 1 else 0) +
            (rest.filter fun x => x.option = some (i : Int)).length := by
        intro i
        by_cases h : r.option = some (i : Int)
        · simp only [List.filter_cons, decide_eq_true h, if_pos h,
            List.length_cons, if_true]
          omega
        · simp [List.filter_cons, h]
      simp only [hsplit]
      rw [List.sum_map_add, sum_indicator_range, ih]
      by_cases h : optionInRange r.option n
      · simp only [List.filter_cons, decide_eq_true h, if_pos h,
          List.length_cons, if_true]
        omega
      · simp only [List.filter_cons, decide_eq_false h, if_neg h,
          Bool.false_eq_true, if_false]
        omega

/-- C3: for a choice-kind element, the per-option counts of the aggregated
result sum to at most the total, with equality exactly when every recorded
response carries a valid in-range option index; responses with an absent
or out-of-range option are counted in the total but in no bucket. -/
theorem claim3_sum_counts (st : ServerState) (eid : String) (el : Element)
    (opts : List OptionResult) (total : Nat)
    (hel : st.presentationElements.lookup eid = some el)
    (hq : el.type ≠ "question")
    (hagg : getResults st eid = .ok (.choice opts total)) :
    (opts.map OptionResult.count).sum ≤ total ∧
    ((opts.map OptionResult.count).sum = total ↔
      ∀ r ∈ (st.responses.lookup eid).getD [],
        optionInRange r.option el.options.length) := by
  have hform := getResults_choice_eq st eid el hel hq
  rw [hagg] at hform
  injection hform with hch
  injection hch with hopts htot
  subst hopts
  subst htot
  have hm : ((el.options.enum.map fun p =>
        aggregateOption p.2 p.1 ((st.responses.lookup eid).getD [])).map
          OptionResult.count) =
      (List.range el.options.length).map fun i : Nat =>
        (((st.responses.lookup eid).getD []).filter
          fun r => r.option = some (i : Int)).length := by
    rw [List.map_map]
    have hfun : (OptionResult.count ∘ fun p : Nat × String =>
          aggregateOption p.2 p.1 ((st.responses.lookup eid).getD [])) =
        (fun i : Nat => (((st.responses.lookup eid).getD []).filter
          fun r => r.option = some (i : Int)).length) ∘ Prod.fst := by
      funext p
      simp [Function.comp, aggregateOption_count]
    rw [hfun, ← List.map_map, List.enum_map_fst]
  rw [hm, sum_counts_eq]
  constructor
  · exact List.length_filter_le _ _
  · rw [List.filter_length_eq_length]
    simp

/-- Witness for C3: at the scenario state the bucket counts sum to at
most the total of 3 (here, exactly 3). -/
theorem claim3_sum_counts_witness :
    ([aggregateOption "A" 0 scenarioResponses,
      aggregateOption "B" 1 scenarioResponses].map OptionResult.count).sum
      ≤ 3 :=
  (claim3_sum_counts scenarioPollState "p1"
    { id := "p1", type := "poll", title := "Poll",
      options := ["A", "B"], createdAt := 0 }
    [aggregateOption "A" 0 scenarioResponses,
     aggregateOption "B" 1 scenarioResponses] 3
    (by decide) (by decide) rfl).1

/-- C4: submitting a response with non-empty `elementId` and `user`
succeeds even when no element with that id exists: it appends the
response under that id and replies with the new count, so the listed
count grows by one, while aggregation on the same unknown id still fails
with `NotFoundError`. -/
theorem claim4_submit_unknown_id (st : ServerState) (eid u : String)
    (r : Option String) (o : Option Int) (ot : Option String) (now : Nat)
    (he : eid ≠ "") (hu : u ≠ "")
    (hel : st.presentationElements.lookup eid = none) :
    (submitResponse st eid u r o ot now).2 =
      .ok (((st.responses.lookup eid).getD []).length + 1) ∧
    (listResponses (submitResponse st eid u r o ot now).1 eid).count =
      ((st.responses.lookup eid).getD []).length + 1 ∧
    getResults (submitResponse st eid u r o ot now).1 eid =
      .error .notFoundError := by
  have hne : ¬(eid = "" ∨ u = "") := by
    rintro (h | h)
    · exact he h
    · exact hu h
  refine ⟨?_, ?_, ?_⟩
  · simp [submitResponse, if_neg hne]
  · simp only [submitResponse, if_neg hne, listResponses]
    rw [lookup_setKey_self]
    simp
  · have hst : (submitResponse st eid u r o ot now).1.presentationElements
        = st.presentationElements := by
      simp [submitResponse, if_neg hne]
    unfold getResults
    rw [hst, hel]

/-- Witness for C4: submitting for the unknown id `ghost` on the empty
initial store succeeds with count 1 and aggregation fails. -/
theorem claim4_submit_unknown_id_witness :
    (submitResponse initialState "ghost" "u1" none none none 0).2 = .ok 1 ∧
    (listResponses (submitResponse initialState "ghost" "u1" none none none
      0).1 "ghost").count = 1 ∧
    getResults (submitResponse initialState "ghost" "u1" none none none
      0).1 "ghost" = .error .notFoundError :=
  claim4_submit_unknown_id initialState "ghost" "u1" none none none 0
    (by decide) (by decide) (by decide)

/-- C5: `clearAllResponses` with an invalid admin key fails with
`UnauthorizedError` and leaves every element's response sequence exactly
as it was. -/
theorem claim5_clear_unauthorized (st : ServerState) (key : String)
    (hk : key ≠ adminSecret) :
    clearAllResponses st key = (st, .error .unauthorizedError) ∧
    ∀ eid, listResponses (clearAllResponses st key).1 eid =
      listResponses st eid := by
  have h : clearAllResponses st key = (st, .error .unauthorizedError) := by
    simp [clearAllResponses, hk]
  exact ⟨h, fun eid => by rw [h]⟩

/-- Witness for C5: a wrong key against the scenario state is rejected
with the state untouched. -/
theorem claim5_clear_unauthorized_witness :
    clearAllResponses scenarioPollState "wrong" =
      (scenarioPollState, .error .unauthorizedError) :=
  (claim5_clear_unauthorized scenarioPollState "wrong" (by decide)).1

/-- A stream of slide-change calls applied in order through
`GET /api/sync` (the reply clock is irrelevant to the stored slide). -/
def runSlides (st : ServerState) (names : List String) : ServerState :=
  names.foldl (fun s n => (setSlide s n 0).1) st

/-- C6: after the Nth valid (non-empty) `setSlide` call of a sequence,
`getSlide` returns exactly the Nth name — never a stale or future one —
with no propagation delay. -/
theorem claim6_slide_sequence (st : ServerState) (names : List String)
    (hv : ∀ s ∈ names, s ≠ "") (n : Nat) (hn : n < names.length) (t : Nat) :
    getSlide (runSlides st (names.take (n + 1))) t =
      { currentSlide := names.get ⟨n, hn⟩, timestamp := t } := by
  induction names generalizing st n with
  | nil => exact absurd hn (by simp)
  | cons x rest ih =>
      have hx : x ≠ "" := hv x (List.mem_cons_self x rest)
      cases n with
      | zero =>
          show getSlide (runSlides st [x]) t = _
          simp [runSlides, getSlide, setSlide, hx]
      | succ n =>
          have hrest : ∀ s ∈ rest, s ≠ "" :=
            fun s hs => hv s (List.mem_cons_of_mem x hs)
          have hn2 : n < rest.length := Nat.lt_of_succ_lt_succ hn
          have hrec := ih ((setSlide st x 0).1) hrest n hn2
          show getSlide (runSlides st (x :: rest.take (n + 1))) t = _
          rw [show runSlides st (x :: rest.take (n + 1)) =
            runSlides ((setSlide st x 0).1) (rest.take (n + 1)) from rfl]
          exact hrec

/-- Witness for C6: `setSlide("Slide3")` then `getSlide` returns
`Slide3` immediately. -/
theorem claim6_slide_sequence_witness :
    getSlide (runSlides initialState ["Slide3"]) 7 =
      { currentSlide := "Slide3", timestamp := 7 } :=
  claim6_slide_sequence initialState ["Slide3"] (by decide) 0 (by decide) 7

/-- The state after `setSlide("Slide3")` at clock 5 on the initial
store. -/
def slide3State : ServerState := (setSlide initialState "Slide3" 5).1

/-- C7 counterexample: the claim says every `getSlide` call between two
slide changes returns the same stored `updatedAt` stamp; but the code
stores no timestamp, and two reads of the unchanged state at clock 10
and clock 20 report different timestamps. -/
theorem claim7_counterexample :
    ¬ (getSlide slide3State 10).timestamp =
      (getSlide slide3State 20).timestamp := by
  decide

/-- C7 (amended): `setSlide` stores only the slide name — the server
state carries no `updatedAt` field at all — and each `getSlide` reply is
stamped with the clock at read time; hence reads between two slide
changes agree on `currentSlide` while each reports its own read time. -/
theorem claim7_read_time_stamp (st : ServerState) (name : String)
    (now t1 t2 : Nat) (hn : name ≠ "") :
    (setSlide st name now).1 = { st with currentSlide := name } ∧
    (getSlide (setSlide st name now).1 t1).currentSlide =
      (getSlide (setSlide st name now).1 t2).currentSlide ∧
    (getSlide (setSlide st name now).1 t1).currentSlide = name ∧
    (getSlide (setSlide st name now).1 t1).timestamp = t1 := by
  have h : (setSlide st name now).1 = { st with currentSlide := name } := by
    simp [setSlide, hn]
  refine ⟨h, rfl, ?_, rfl⟩
  rw [h]
  rfl

/-- Witness for C7's amended statement at a concrete slide change and
two concrete read times. -/
theorem claim7_read_time_stamp_witness :
    (setSlide initialState "Slide3" 5).1 =
      { initialState with currentSlide := "Slide3" } ∧
    (getSlide (setSlide initialState "Slide3" 5).1 10).currentSlide =
      (getSlide (setSlide initialState "Slide3" 5).1 20).currentSlide ∧
    (getSlide (setSlide initialState "Slide3" 5).1 10).currentSlide =
      "Slide3" ∧
    (getSlide (setSlide initialState "Slide3" 5).1 10).timestamp = 10 :=
  claim7_read_time_stamp initialState "Slide3" 5 10 20 (by decide)

/-- C8: element creation fails with `ValidationError` when `id`, `type`
or `title` is missing/empty; with all three non-empty it always succeeds,
silently overwriting any existing element under the same id, so that a
subsequent `getElement` returns the most recently supplied definition. -/
theorem claim8_save_upsert (st : ServerState) (id ty title : String)
    (opts : Option (List String)) (now : Nat)
    (h1 : id ≠ "") (h2 : ty ≠ "") (h3 : title ≠ "") :
    (∀ i2 t2 ti2 : String, (i2 = "" ∨ t2 = "" ∨ ti2 = "") →
      saveElement st i2 t2 ti2 opts now = (st, .error .validationError)) ∧
    (saveElement st id ty title opts now).2 =
      .ok { id := id, type := ty, title := title,
            options := opts.getD [], createdAt := now } ∧
    getElement (saveElement st id ty title opts now).1 id =
      .ok { id := id, type := ty, title := title,
            options := opts.getD [], createdAt := now } := by
  have hne : ¬(id = "" ∨ ty = "" ∨ title = "") := by
    rintro (h | h | h)
    · exact h1 h
    · exact h2 h
    · exact h3 h
  refine ⟨?_, ?_, ?_⟩
  · intro i2 t2 ti2 hbad
    unfold saveElement
    rw [if_pos hbad]
  · simp [saveElement, if_neg hne]
  · have hst : (saveElement st id ty title opts now).1.presentationElements
        = setKey st.presentationElements id
            { id := id, type := ty, title := title,
              options := opts.getD [], createdAt := now } := by
      simp [saveElement, if_neg hne]
    unfold getElement
    rw [hst, lookup_setKey_self]

/-- A base state that already binds `p1` (with an older definition) and
holds the scenario responses for it. -/
def overwriteBaseState : ServerState := scenarioPollState

/-- Witness for C8: overwriting the existing `p1` succeeds and
`getElement` returns the new definition. -/
theorem claim8_save_upsert_witness :
    (saveElement overwriteBaseState "p1" "vote" "New" (some ["X", "Y"])
      9).2 = .ok
        { id := "p1", type := "vote", title := "New",
          options := ["X", "Y"], createdAt := 9 } ∧
    getElement (saveElement overwriteBaseState "p1" "vote" "New"
      (some ["X", "Y"]) 9).1 "p1" = .ok
        { id := "p1", type := "vote", title := "New",
          options := ["X", "Y"], createdAt := 9 } := by
  have h := claim8_save_upsert overwriteBaseState "p1" "vote" "New"
    (some ["X", "Y"]) 9 (by decide) (by decide) (by decide)
  exact ⟨h.2.1, h.2.2⟩

theorem sum_values_eq_sum_over_keys (l : List (String × List Response))
    (h : (l.map Prod.fst).Nodup) :
    (l.map fun p => p.2.length).sum =
    ((l.map Prod.fst).map fun k => ((l.lookup k).getD []).length).sum := by
  induction l with
  | nil => rfl
  | cons p rest ih =>
      obtain ⟨k, v⟩ := p
      have hnd := List.nodup_cons.mp h
      rw [List.map_cons, List.sum_cons, List.map_cons, List.map_cons,
        List.sum_cons]
      have hk : ((((k, v) :: rest).lookup k).getD []).length = v.length := by
        simp [List.lookup]
      have hcong : ∀ k2 ∈ rest.map Prod.fst,
          (fun k3 => (((((k, v) :: rest)).lookup k3).getD []).length) k2 =
          (fun k3 => (((rest.lookup k3)).getD []).length) k2 := by
        intro k2 hk2
        have hne : k2 ≠ k := fun he => hnd.1 (he ▸ hk2)
        simp only [List.lookup]
        rw [show (k2 == k) = false from beq_eq_false_iff_ne.mpr hne]
      rw [hk, List.map_congr_left hcong, ← ih hnd.2]

/-- C9: `getHealth` is total (it never fails) and reports the current
slide, the number of live elements, and a `responsesCount` equal to the
sum over every key of the response store of that key's sequence length
at call time. -/
theorem claim9_health (st : ServerState)
    (h : (st.responses.map Prod.fst).Nodup) :
    getHealth st =
      { currentSlide := st.currentSlide,
        elementsCount := st.presentationElements.length,
        responsesCount := ((st.responses.map Prod.fst).map
          fun k => (listResponses st k).count).sum } := by
  unfold getHealth
  congr 1
  rw [sum_values_eq_sum_over_keys st.responses h]
  rfl

/-- Witness for C9 at the scenario state: one element, three responses. -/
theorem claim9_health_witness :
    getHealth scenarioPollState =
      { currentSlide := "", elementsCount := 1, responsesCount := 3 } := by
  rw [claim9_health scenarioPollState (by decide)]
  decide

/-- C10: overwriting an existing element through `saveElement` leaves the
response store untouched — the overwritten element's recorded responses,
every other element's responses, and the current slide are unchanged, so
earlier responses still appear in `listResponses`. -/
theorem claim10_upsert_frame (st : ServerState) (id ty title : String)
    (opts : Option (List String)) (now : Nat) (el0 : Element)
    (hprev : st.presentationElements.lookup id = some el0)
    (h1 : id ≠ "") (h2 : ty ≠ "") (h3 : title ≠ "") :
    (saveElement st id ty title opts now).1.responses = st.responses ∧
    (saveElement st id ty title opts now).1.currentSlide =
      st.currentSlide ∧
    (∀ eid, listResponses (saveElement st id ty title opts now).1 eid =
      listResponses st eid) := by
  have hne : ¬(id = "" ∨ ty = "" ∨ title = "") := by
    rintro (h | h | h)
    · exact h1 h
    · exact h2 h
    · exact h3 h
  refine ⟨?_, ?_, fun eid => ?_⟩ <;>
    simp [saveElement, if_neg hne, listResponses]

/-- Witness for C10: overwriting `p1` at the scenario state keeps its
three recorded responses visible in `listResponses` and the slide
unchanged. -/
theorem claim10_upsert_frame_witness :
    (saveElement scenarioPollState "p1" "vote" "New" (some ["X"])
      9).1.responses = scenarioPollState.responses ∧
    listResponses (saveElement scenarioPollState "p1" "vote" "New"
      (some ["X"]) 9).1 "p1" = listResponses scenarioPollState "p1" := by
  have h := claim10_upsert_frame scenarioPollState "p1" "vote" "New"
    (some ["X"]) 9
    { id := "p1", type := "poll", title := "Poll",
      options := ["A", "B"], createdAt := 0 }
    (by decide) (by decide) (by decide) (by decide)
  exact ⟨h.1, h.2.2 "p1"⟩
